import Mathlib

/-!
Verification development for the HEART BALLOON POP arcade game
(`src/game.py`, `src/heart_detector.py`, `main.py`).

Shallow embedding conventions:
* Python floats are modelled as exact rationals (`ℚ`); decimal literals of
  the source become the corresponding rationals.
* Wall-clock reads (`time.time()`) become explicit `now : ℚ` parameters.
* Random draws (`random.random()`, `random.randint`, `random.uniform`)
  become explicit parameters of the operations that consume them.
* `math.sin` is passed in as an abstract function parameter `sinFn`;
  no verified property depends on its values.
* Rendering-only data (colors, fonts, surfaces, camera frames) is omitted;
  it is never read back by game logic.
-/

namespace BalloonPop

/-- Virtual playfield width (`VIRTUAL_WIDTH = 480`). -/
def VIRTUAL_WIDTH : ℚ := 480

/-- Virtual playfield height (`VIRTUAL_HEIGHT = 270`). -/
def VIRTUAL_HEIGHT : ℚ := 270

/-- Game duration in seconds (`GAME_DURATION = 30`). -/
def GAME_DURATION : ℚ := 30

/-- Balloon spawn interval in seconds (`BALLOON_SPAWN_INTERVAL = 0.8`). -/
def BALLOON_SPAWN_INTERVAL : ℚ := 8/10

/-- Base balloon radius (`BALLOON_SIZE = 12`). -/
def BALLOON_SIZE : ℚ := 12

/-- Shoot cooldown in seconds (`SHOOT_COOLDOWN = 0.3`). -/
def SHOOT_COOLDOWN : ℚ := 3/10

/-- The six balloon categories, in the insertion order of the
`BALLOON_TYPES` dict of `game.py`. -/
inductive BalloonType
  | normal
  | bonus
  | penalty
  | fast
  | zigzag
  | ultra_rare
deriving DecidableEq, Repr

/-- The `BALLOON_TYPES` dict: category ↦ probability, in insertion order
(normal 0.35, bonus 0.20, penalty 0.20, fast 0.10, zigzag 0.10,
ultra_rare 0.05). -/
def BALLOON_TYPES : List (BalloonType × ℚ) :=
  [(BalloonType.normal, 35/100), (BalloonType.bonus, 20/100),
   (BalloonType.penalty, 20/100), (BalloonType.fast, 10/100),
   (BalloonType.zigzag, 10/100), (BalloonType.ultra_rare, 5/100)]

/-- A balloon (`class Balloon`), with the fields game logic reads.
The rendering-only `color` field is omitted. -/
structure Balloon where
  x : ℚ
  y : ℚ
  initial_x : ℚ
  speed : ℚ
  radius : ℚ
  alive : Bool
  balloon_type : BalloonType
  age : ℚ
  score_value : ℤ
deriving DecidableEq, Repr

/-- `Balloon.__init__(x, y, color, speed, balloon_type)`: sets the base
fields, then adjusts score value, radius and speed per type. -/
def Balloon.init (x y speed : ℚ) (balloon_type : BalloonType) : Balloon :=
  match balloon_type with
  | BalloonType.bonus =>
      { x := x, y := y, initial_x := x, speed := speed,
        radius := BALLOON_SIZE + 2, alive := true,
        balloon_type := balloon_type, age := 0, score_value := 20 }
  | BalloonType.penalty =>
      { x := x, y := y, initial_x := x, speed := speed,
        radius := BALLOON_SIZE, alive := true,
        balloon_type := balloon_type, age := 0, score_value := -30 }
  | BalloonType.fast =>
      { x := x, y := y, initial_x := x, speed := speed * (18/10),
        radius := BALLOON_SIZE, alive := true,
        balloon_type := balloon_type, age := 0, score_value := 15 }
  | BalloonType.zigzag =>
      { x := x, y := y, initial_x := x, speed := speed,
        radius := BALLOON_SIZE, alive := true,
        balloon_type := balloon_type, age := 0, score_value := 15 }
  | BalloonType.ultra_rare =>
      { x := x, y := y, initial_x := x, speed := speed * 3,
        radius := BALLOON_SIZE + 3, alive := true,
        balloon_type := balloon_type, age := 0, score_value := 100 }
  | BalloonType.normal =>
      { x := x, y := y, initial_x := x, speed := speed,
        radius := BALLOON_SIZE, alive := true,
        balloon_type := balloon_type, age := 0, score_value := 10 }

/-- `Balloon.update(dt)`: grow `age`, move up by `speed*dt`, zigzag
balloons oscillate horizontally via `sin(age*3)*30` around `initial_x`,
and a balloon past the top bound by more than `2*radius` dies.
`sinFn` stands for `math.sin`. -/
def Balloon.update (b : Balloon) (sinFn : ℚ → ℚ) (dt : ℚ) : Balloon :=
  let age := b.age + dt
  let y := b.y - b.speed * dt
  let x := if b.balloon_type = BalloonType.zigzag
           then b.initial_x + sinFn (age * 3) * 30 else b.x
  let alive := if y < -b.radius * 2 then false else b.alive
  { b with age := age, y := y, x := x, alive := alive }

/-- `Balloon.collides_with(x, y, radius)`: the source compares the
Euclidean distance `((self.x-x)**2 + (self.y-y)**2)**0.5` against
`self.radius + radius`; since both sides are nonnegative this is
equivalent to the squared comparison used here. -/
def Balloon.collides_with (b : Balloon) (x y radius : ℚ) : Bool :=
  decide ((b.x - x)^2 + (b.y - y)^2 < (b.radius + radius)^2)

/-- A shoot effect (`class ShootEffect`). -/
structure ShootEffect where
  x : ℚ
  y : ℚ
  radius : ℚ
  max_radius : ℚ
  alive : Bool
  lifetime : ℚ
  age : ℚ
deriving DecidableEq, Repr

/-- `ShootEffect.__init__(x, y)`. -/
def ShootEffect.init (x y : ℚ) : ShootEffect :=
  { x := x, y := y, radius := 3, max_radius := 20, alive := true,
    lifetime := 3/10, age := 0 }

/-- `ShootEffect.update(dt)`: age; die past the lifetime, otherwise grow
the radius linearly with the age fraction. -/
def ShootEffect.update (e : ShootEffect) (dt : ℚ) : ShootEffect :=
  let age := e.age + dt
  if age ≥ e.lifetime then { e with age := age, alive := false }
  else { e with age := age,
                radius := 3 + (e.max_radius - 3) * (age / e.lifetime) }

/-- The game state strings `"READY"`, `"RUN"`, `"RESULT"`. -/
inductive GameState
  | READY
  | RUN
  | RESULT
deriving DecidableEq, Repr

/-- The mutable state of `class Game` read or written by game logic
(display, fonts, clock, camera frame and the running flag are
rendering/IO-only and omitted). -/
structure Game where
  state : GameState
  score : ℤ
  balloons_popped : ℕ
  game_start_time : ℚ
  last_shoot_time : ℚ
  last_balloon_spawn : ℚ
  balloons : List Balloon
  shoot_effects : List ShootEffect
  is_aiming : Bool
  aiming_position : Option (ℤ × ℤ)
deriving DecidableEq, Repr

/-- `Game.__init__`: the initial field values. -/
def Game.init : Game :=
  { state := GameState.READY, score := 0, balloons_popped := 0,
    game_start_time := 0, last_shoot_time := 0, last_balloon_spawn := 0,
    balloons := [], shoot_effects := [], is_aiming := false,
    aiming_position := none }

/-- The cumulative-probability type selection loop of
`Game.spawn_balloon`: `cumulative_prob` starts at 0 and `balloon_type`
defaults to `"normal"`; for each `(btype, prob)` in `BALLOON_TYPES`
order, add `prob` and stop at the first entry with
`rand_val <= cumulative_prob`. -/
def chooseBalloonTypeAux (rand_val : ℚ) : List (BalloonType × ℚ) → ℚ → BalloonType
  | [], _ => BalloonType.normal
  | (btype, prob) :: rest, cumulative_prob =>
      let cumulative_prob := cumulative_prob + prob
      if rand_val ≤ cumulative_prob then btype
      else chooseBalloonTypeAux rand_val rest cumulative_prob

/-- Balloon type drawn by `Game.spawn_balloon` for a given uniform draw
`rand_val` (`random.random()`). -/
def chooseBalloonType (rand_val : ℚ) : BalloonType :=
  chooseBalloonTypeAux rand_val BALLOON_TYPES 0

/-- `Game.spawn_balloon`: the random inputs (`random.randint` x,
`random.uniform` speed, `random.random()` type draw) are explicit
parameters; the new balloon is appended at the bottom edge. -/
def Game.spawn_balloon (g : Game) (x speed rand_val : ℚ) : Game :=
  let y := VIRTUAL_HEIGHT + BALLOON_SIZE
  let balloon_type := chooseBalloonType rand_val
  { g with balloons := g.balloons ++ [Balloon.init x y speed balloon_type] }

/-- The hit-scan loop of `Game.shoot`: walk the balloon list in order;
at the first balloon with `alive` and `collides_with(vx, vy, 15)`, mark
it dead and report its score value and (if positive) a popped increment,
then stop (`break`). Returns (updated list, score delta, popped delta). -/
def shootScan (vx vy : ℚ) : List Balloon → List Balloon × ℤ × ℕ
  | [] => ([], 0, 0)
  | b :: rest =>
      if b.alive && b.collides_with vx vy 15 then
        ({ b with alive := false } :: rest, b.score_value,
         if b.score_value > 0 then 1 else 0)
      else
        let r := shootScan vx vy rest
        (b :: r.1, r.2.1, r.2.2)

/-- `Game.shoot(x, y)` at wall-clock time `now`: reject inside the
cooldown; otherwise map `(x, y)` from the 0–1000 space to virtual
coordinates, append a `ShootEffect` there, run the hit scan with hit
radius 15, and record `now` as the last shoot time. -/
def Game.shoot (g : Game) (now x y : ℚ) : Game :=
  if now - g.last_shoot_time < SHOOT_COOLDOWN then g
  else
    let virtual_x := (x / 1000) * VIRTUAL_WIDTH
    let virtual_y := (y / 1000) * VIRTUAL_HEIGHT
    let scan := shootScan virtual_x virtual_y g.balloons
    { g with
      shoot_effects := g.shoot_effects ++ [ShootEffect.init virtual_x virtual_y],
      balloons := scan.1,
      score := g.score + scan.2.1,
      balloons_popped := g.balloons_popped + scan.2.2,
      last_shoot_time := now }

/-- `Game.calculate_time_tickets`: ≥30 popped → 90; ≥15 → `(popped-15)*6`;
below 15 → the same formula (negative). -/
def Game.calculate_time_tickets (g : Game) : ℤ :=
  if g.balloons_popped ≥ 30 then 90
  else if g.balloons_popped ≥ 15 then ((g.balloons_popped : ℤ) - 15) * 6
  else ((g.balloons_popped : ℤ) - 15) * 6

/-- `Game.update(dt)` at wall-clock time `now`. In RUN: if elapsed ≥
`GAME_DURATION`, go to RESULT and return; otherwise maybe spawn a
balloon (random inputs passed through), advance balloons and effects,
and prune dead ones. READY and RESULT ticks do nothing. -/
def Game.update (g : Game) (now dt : ℚ) (sinFn : ℚ → ℚ)
    (spawnX spawnSpeed spawnRand : ℚ) : Game :=
  match g.state with
  | GameState.READY => g
  | GameState.RESULT => g
  | GameState.RUN =>
      let elapsed_time := now - g.game_start_time
      if elapsed_time ≥ GAME_DURATION then { g with state := GameState.RESULT }
      else
        let g :=
          if now - g.last_balloon_spawn ≥ BALLOON_SPAWN_INTERVAL then
            { (g.spawn_balloon spawnX spawnSpeed spawnRand) with
              last_balloon_spawn := now }
          else g
        let g := { g with
          balloons := g.balloons.map (fun (b : Balloon) => b.update sinFn dt),
          shoot_effects := g.shoot_effects.map (fun (e : ShootEffect) => e.update dt) }
        { g with
          balloons := g.balloons.filter (fun (b : Balloon) => b.alive),
          shoot_effects := g.shoot_effects.filter (fun (e : ShootEffect) => e.alive) }

/-- `Game.set_aiming(is_aiming, position)`. -/
def Game.set_aiming (g : Game) (a : Bool) (p : Option (ℤ × ℤ)) : Game :=
  { g with is_aiming := a, aiming_position := p }

/-- `Game.start_game`: reset score/popped, clear both entity lists,
record the start and spawn-timer timestamps. -/
def Game.start_game (g : Game) (now : ℚ) : Game :=
  { g with
    state := GameState.RUN, score := 0, balloons_popped := 0,
    game_start_time := now, last_balloon_spawn := now,
    balloons := [], shoot_effects := [] }

/-- One MediaPipe hand landmark (normalized 0–1 image coordinates);
only the x/y components are read by the detector. -/
structure Landmark where
  x : ℚ
  y : ℚ
deriving DecidableEq, Repr

/-- The hand landmarks `_detect_gun_gesture` reads (wrist, tips and PIP
joints of index/middle/ring/pinky; the thumb is never read). -/
structure HandLandmarks where
  wrist : Landmark
  index_tip : Landmark
  index_pip : Landmark
  middle_tip : Landmark
  middle_pip : Landmark
  ring_tip : Landmark
  ring_pip : Landmark
  pinky_tip : Landmark
  pinky_pip : Landmark
deriving DecidableEq, Repr

/-- Python `int()` on a real value: truncation toward zero. -/
def pyInt (q : ℚ) : ℤ := if 0 ≤ q then ⌊q⌋ else -⌊-q⌋

/-- `HeartDetector._is_finger_extended`: tip strictly higher than the
PIP joint by the fixed margin 0.015 (smaller y = higher in image
space). -/
def is_finger_extended (tip pip : Landmark) : Bool :=
  decide (tip.y < pip.y - 15/1000)

/-- The strict-gun test of `_detect_gun_gesture`: index extended and
middle, ring, pinky all curled (not extended). -/
def is_strict_gun (h : HandLandmarks) : Bool :=
  is_finger_extended h.index_tip h.index_pip &&
  !is_finger_extended h.middle_tip h.middle_pip &&
  !is_finger_extended h.ring_tip h.ring_pip &&
  !is_finger_extended h.pinky_tip h.pinky_pip

/-- The orientation test `225 <= angle_degrees <= 315` of
`_detect_gun_gesture`, where `angle_degrees = atan2(dy, dx)` in degrees
normalized to `[0, 360)`. The closed angular sector `[225°, 315°]` is
exactly the set of vectors with `dy < 0` and `|dx| ≤ -dy` (boundaries:
225° ↔ dx = dy < 0, 270° ↔ dx = 0 > dy, 315° ↔ dx = -dy > 0; a vector
with `dy = 0` has angle 0° or 180°, never in the sector), which is the
decidable rational form used here in place of the transcendental
`np.arctan2`. -/
def shoot_angle_ok (dx dy : ℚ) : Bool :=
  decide (dy < 0 ∧ |dx| ≤ -dy)

/-- The `position` computed by `_detect_gun_gesture`: the index tip
scaled to the 0–1000 space, truncated with `int()`. -/
def index_tip_position (h : HandLandmarks) : ℤ × ℤ :=
  (pyInt (h.index_tip.x * 1000), pyInt (h.index_tip.y * 1000))

/-- `HeartDetector._detect_gun_gesture`: returns
`(shoot_position, is_aiming, aiming_position)`. Shoot when the wrist→
index-tip direction is in the upward sector AND the strict gun holds;
otherwise the hand is always classified as aiming at the index tip. -/
def detect_gun_gesture (h : HandLandmarks) :
    Option (ℤ × ℤ) × Bool × Option (ℤ × ℤ) :=
  let position := index_tip_position h
  let dx := h.index_tip.x - h.wrist.x
  let dy := h.index_tip.y - h.wrist.y
  if shoot_angle_ok dx dy && is_strict_gun h then (some position, false, none)
  else (none, true, some position)

/-- The logic-relevant part of the 5-tuple returned by
`HeartDetector.detect` (the debug frame is rendering-only). -/
structure DetectResult where
  shoot_detected : Bool
  shoot_position : Option (ℤ × ℤ)
  is_aiming : Bool
  aiming_position : Option (ℤ × ℤ)
deriving DecidableEq, Repr

/-- `HeartDetector.detect`: at most one tracked hand (`max_num_hands=1`)
is modelled as an `Option HandLandmarks`. No hand → all-false/none
(idle). With a hand, dispatch on `_detect_gun_gesture`; a returned
shoot position is a non-empty tuple, hence truthy, even at `(0, 0)`. -/
def detect : Option HandLandmarks → DetectResult
  | none => ⟨false, none, false, none⟩
  | some h =>
      let r := detect_gun_gesture h
      match r.1 with
      | some shoot_pos => ⟨true, some shoot_pos, false, none⟩
      | none =>
          if r.2.1 then ⟨false, none, true, r.2.2⟩
          else ⟨false, none, false, none⟩

/-- The cross-tick state of the main loop in `main.py`: the game, the
previous tick's `heart_detected` (edge tracker) and the last known
aiming position. -/
structure LoopState where
  game : Game
  last_heart_state : Bool
  last_aiming_position : Option (ℤ × ℤ)
deriving DecidableEq, Repr

/-- The gesture-handling portion of one main-loop iteration
(`main.py` lines 79–94), for a tick with a camera frame and detector
output `d`: update the game's aim state and the stored aiming position
while in READY or RUN, then on a rising edge of `shoot_detected` and in
RUN, shoot at the stored aiming position if one exists. A non-`none`
aiming position is a non-empty tuple, hence truthy even at `(0, 0)`. -/
def processGesture (s : LoopState) (d : DetectResult) (now : ℚ) : LoopState :=
  let g := s.game
  let p1 :=
    if g.state = GameState.READY ∨ g.state = GameState.RUN then
      (g.set_aiming d.is_aiming d.aiming_position,
       if d.is_aiming && d.aiming_position.isSome then d.aiming_position
       else s.last_aiming_position)
    else (g, s.last_aiming_position)
  let g := p1.1
  let last_aiming_position := p1.2
  let g :=
    if d.shoot_detected && !s.last_heart_state then
      if g.state = GameState.RUN then
        match last_aiming_position with
        | some xy => g.shoot now (xy.1 : ℚ) (xy.2 : ℚ)
        | none => g
      else g
    else g
  { game := g, last_heart_state := d.shoot_detected,
    last_aiming_position := last_aiming_position }

/-- The edge tracker of the main loop over a whole input sequence:
given the previous tick's `heart_detected` and the per-tick
`heart_detected` values, the per-tick trigger values
`heart_detected and not last_heart_state`, with `last_heart_state`
updated to the current value after each tick. -/
def shootTriggers : Bool → List Bool → List Bool
  | _, [] => []
  | prev, b :: rest => (b && !prev) :: shootTriggers b rest

/-- Specification-side characterization (from the spec's wording, to be
compared with `shootScan`): the index of the first balloon in list
order that is alive and whose distance to the shot point is below its
radius plus the hit radius 15. -/
def firstHitIndexSpec (vx vy : ℚ) : List Balloon → Option ℕ
  | [] => none
  | b :: rest =>
      if b.alive && b.collides_with vx vy 15 then some 0
      else (firstHitIndexSpec vx vy rest).map (fun i => i + 1)

/-- C3: the time-ticket value is a pure function of the popped-balloon
count: ≥30 popped → exactly 90; 15–29 popped → `(popped-15)*6`; below
15 → `(popped-15)*6`, which is negative; popped = 0/15/29/30/45 give
−90/0/84/90/90 (clamped, not 180); and two games with equal popped
counts get equal ticket values (the computation reads no other state
and modifies nothing). -/
theorem time_tickets_formula (g g' : Game) :
    (30 ≤ g.balloons_popped → g.calculate_time_tickets = 90) ∧
    (15 ≤ g.balloons_popped → g.balloons_popped ≤ 29 →
      g.calculate_time_tickets = ((g.balloons_popped : ℤ) - 15) * 6) ∧
    (g.balloons_popped < 15 →
      g.calculate_time_tickets = ((g.balloons_popped : ℤ) - 15) * 6 ∧
      g.calculate_time_tickets < 0) ∧
    (g.balloons_popped = g'.balloons_popped →
      g.calculate_time_tickets = g'.calculate_time_tickets) ∧
    (({ Game.init with balloons_popped := 0 } : Game).calculate_time_tickets = -90 ∧
     ({ Game.init with balloons_popped := 15 } : Game).calculate_time_tickets = 0 ∧
     ({ Game.init with balloons_popped := 29 } : Game).calculate_time_tickets = 84 ∧
     ({ Game.init with balloons_popped := 30 } : Game).calculate_time_tickets = 90 ∧
     ({ Game.init with balloons_popped := 45 } : Game).calculate_time_tickets = 90) := by
  refine ⟨?_, ?_, ?_, ?_, by decide⟩
  · intro h
    unfold Game.calculate_time_tickets
    rw [if_pos h]
  · intro h1 h2
    unfold Game.calculate_time_tickets
    rw [if_neg (by omega), if_pos h1]
  · intro h
    unfold Game.calculate_time_tickets
    rw [if_neg (by omega), if_neg (by omega)]
    exact ⟨rfl, by omega⟩
  · intro h
    unfold Game.calculate_time_tickets
    rw [h]

/-- Witness for `time_tickets_formula` at concrete popped counts. -/
theorem time_tickets_formula_witness :
    ({ Game.init with balloons_popped := 45 } : Game).calculate_time_tickets = 90 ∧
    ({ Game.init with balloons_popped := 20 } : Game).calculate_time_tickets =
      ((20 : ℤ) - 15) * 6 ∧
    (({ Game.init with balloons_popped := 10 } : Game).calculate_time_tickets =
      ((10 : ℤ) - 15) * 6 ∧
     ({ Game.init with balloons_popped := 10 } : Game).calculate_time_tickets < 0) ∧
    ({ Game.init with balloons_popped := 7 } : Game).calculate_time_tickets =
      ({ Game.init with balloons_popped := 7, score := 5 } : Game).calculate_time_tickets :=
  ⟨(time_tickets_formula { Game.init with balloons_popped := 45 } Game.init).1
      (by decide),
   (time_tickets_formula { Game.init with balloons_popped := 20 } Game.init).2.1
      (by decide) (by decide),
   (time_tickets_formula { Game.init with balloons_popped := 10 } Game.init).2.2.1
      (by decide),
   (time_tickets_formula { Game.init with balloons_popped := 7 }
      { Game.init with balloons_popped := 7, score := 5 }).2.2.2.1 (by decide)⟩

/-- C9: for every balloon the (score value, radius, speed multiplier)
triple is a pure function of the type fixed at construction — normal
(+10, base, ×1), bonus (+20, base+2, ×1), penalty (−30, base, ×1), fast
(+15, base, ×1.8), zigzag (+15, base, ×1), ultra_rare (+100, base+3,
×3) — and a per-tick update never changes score value or radius. -/
theorem balloon_type_properties (x y speed dt : ℚ) (sinFn : ℚ → ℚ) (b : Balloon) :
    ((Balloon.init x y speed BalloonType.normal).score_value = 10 ∧
     (Balloon.init x y speed BalloonType.normal).radius = BALLOON_SIZE ∧
     (Balloon.init x y speed BalloonType.normal).speed = speed * 1) ∧
    ((Balloon.init x y speed BalloonType.bonus).score_value = 20 ∧
     (Balloon.init x y speed BalloonType.bonus).radius = BALLOON_SIZE + 2 ∧
     (Balloon.init x y speed BalloonType.bonus).speed = speed * 1) ∧
    ((Balloon.init x y speed BalloonType.penalty).score_value = -30 ∧
     (Balloon.init x y speed BalloonType.penalty).radius = BALLOON_SIZE ∧
     (Balloon.init x y speed BalloonType.penalty).speed = speed * 1) ∧
    ((Balloon.init x y speed BalloonType.fast).score_value = 15 ∧
     (Balloon.init x y speed BalloonType.fast).radius = BALLOON_SIZE ∧
     (Balloon.init x y speed BalloonType.fast).speed = speed * (18/10)) ∧
    ((Balloon.init x y speed BalloonType.zigzag).score_value = 15 ∧
     (Balloon.init x y speed BalloonType.zigzag).radius = BALLOON_SIZE ∧
     (Balloon.init x y speed BalloonType.zigzag).speed = speed * 1) ∧
    ((Balloon.init x y speed BalloonType.ultra_rare).score_value = 100 ∧
     (Balloon.init x y speed BalloonType.ultra_rare).radius = BALLOON_SIZE + 3 ∧
     (Balloon.init x y speed BalloonType.ultra_rare).speed = speed * 3) ∧
    ((b.update sinFn dt).score_value = b.score_value ∧
     (b.update sinFn dt).radius = b.radius) := by
  refine ⟨⟨rfl, rfl, (mul_one speed).symm⟩, ⟨rfl, rfl, (mul_one speed).symm⟩,
    ⟨rfl, rfl, (mul_one speed).symm⟩, ⟨rfl, rfl, rfl⟩,
    ⟨rfl, rfl, (mul_one speed).symm⟩, ⟨rfl, rfl, rfl⟩, ?_, ?_⟩ <;>
  simp [Balloon.update]

/-- C4: the weighted draw picks the first category in the fixed order
whose cumulative probability (0.35, 0.55, 0.75, 0.85, 0.95, 1) is ≥
the drawn value; a draw of exactly 1 resolves to `ultra_rare`, never
falling through to the `normal` default. -/
theorem balloon_type_draw (r : ℚ) :
    (r ≤ 35/100 → chooseBalloonType r = BalloonType.normal) ∧
    (35/100 < r → r ≤ 55/100 → chooseBalloonType r = BalloonType.bonus) ∧
    (55/100 < r → r ≤ 75/100 → chooseBalloonType r = BalloonType.penalty) ∧
    (75/100 < r → r ≤ 85/100 → chooseBalloonType r = BalloonType.fast) ∧
    (85/100 < r → r ≤ 95/100 → chooseBalloonType r = BalloonType.zigzag) ∧
    (95/100 < r → r ≤ 1 → chooseBalloonType r = BalloonType.ultra_rare) ∧
    chooseBalloonType 1 = BalloonType.ultra_rare := by
  refine ⟨?_, ?_, ?_, ?_, ?_, ?_, ?_⟩ <;>
  · intros
    simp only [chooseBalloonType, BALLOON_TYPES, chooseBalloonTypeAux]
    split_ifs <;> first | rfl | (exfalso; linarith)

/-- Witness for `balloon_type_draw` at concrete draws 0.9 and 0.2. -/
theorem balloon_type_draw_witness :
    chooseBalloonType (9/10) = BalloonType.zigzag ∧
    chooseBalloonType (2/10) = BalloonType.normal :=
  ⟨(balloon_type_draw (9/10)).2.2.2.2.1 (by norm_num) (by norm_num),
   (balloon_type_draw (2/10)).1 (by norm_num)⟩

/-- The value at index `i` of the shoot-trigger sequence produced from
previous value `prev`: true exactly when the tick's input is true and
the value one tick earlier (`prev` for index 0) is false. -/
theorem shootTriggers_getD (inputs : List Bool) :
    ∀ (prev : Bool) (i : ℕ),
      ((shootTriggers prev inputs).getD i false = true ↔
        (inputs.getD i false = true ∧
          (if i = 0 then prev = false else inputs.getD (i-1) false = false))) := by
  induction inputs with
  | nil => intro prev i; simp [shootTriggers]
  | cons b rest ih =>
      intro prev i
      match i with
      | 0 =>
          simp [shootTriggers, Bool.and_eq_true, Bool.not_eq_true']
      | Nat.succ j =>
          have hj := ih b j
          match j with
          | 0 => simpa [shootTriggers] using hj
          | Nat.succ k => simpa [shootTriggers] using hj

/-- C5: starting from previous = false, the edge tracker triggers at
exactly the indices whose input is true and whose predecessor input is
false (index 0 counting as preceded by false); on the sequence
[false, true, true, false, true] the triggers are at indices 1 and 4
only — holding the gesture never fires more than once. -/
theorem rising_edge_triggers :
    (∀ (inputs : List Bool) (i : ℕ),
      (shootTriggers false inputs).getD i false = true ↔
        (inputs.getD i false = true ∧
          (i = 0 ∨ inputs.getD (i-1) false = false))) ∧
    shootTriggers false [false, true, true, false, true] =
      [false, true, false, false, true] := by
  constructor
  · intro inputs i
    have h := shootTriggers_getD inputs false i
    rcases Nat.eq_zero_or_pos i with hi | hi
    · subst hi
      simpa using h
    · rw [if_neg (Nat.pos_iff_ne_zero.mp hi)] at h
      rw [h]
      constructor
      · rintro ⟨h1, h2⟩
        exact ⟨h1, Or.inr h2⟩
      · rintro ⟨h1, h2 | h2⟩
        · exact absurd h2 (Nat.pos_iff_ne_zero.mp hi)
        · exact ⟨h1, h2⟩
  · rfl

/-- C2: a shoot call inside the 0.3s cooldown is a complete no-op (the
whole game state, including score, popped count, balloon list, effects
and the last-shoot timestamp, is returned unchanged — the cooldown
check runs before effect creation); an accepted call always appends
exactly one `ShootEffect` at the mapped position and records the call
time; and two calls 0.1s apart starting from a fresh game leave exactly
one `ShootEffect`. -/
theorem shoot_cooldown_noop (g : Game) (now x y x1 y1 x2 y2 : ℚ) :
    (now - g.last_shoot_time < SHOOT_COOLDOWN → g.shoot now x y = g) ∧
    (¬ now - g.last_shoot_time < SHOOT_COOLDOWN →
      (g.shoot now x y).shoot_effects =
        g.shoot_effects ++
          [ShootEffect.init ((x / 1000) * VIRTUAL_WIDTH) ((y / 1000) * VIRTUAL_HEIGHT)] ∧
      (g.shoot now x y).last_shoot_time = now) ∧
    (((Game.init.start_game 0).shoot 1 x1 y1).shoot (11/10) x2 y2).shoot_effects.length = 1 := by
  refine ⟨?_, ?_, ?_⟩
  · intro h
    unfold Game.shoot
    rw [if_pos h]
  · intro h
    unfold Game.shoot
    rw [if_neg h]
    exact ⟨rfl, rfl⟩
  · have h1 : ¬ ((1 : ℚ) - (Game.init.start_game 0).last_shoot_time < SHOOT_COOLDOWN) := by
      norm_num [Game.init, Game.start_game, SHOOT_COOLDOWN]
    set g1 := (Game.init.start_game 0).shoot 1 x1 y1 with hg1
    have h2 : g1.last_shoot_time = 1 := by
      rw [hg1]
      unfold Game.shoot
      rw [if_neg h1]
    have h3 : ((11:ℚ)/10) - g1.last_shoot_time < SHOOT_COOLDOWN := by
      rw [h2]
      norm_num [SHOOT_COOLDOWN]
    have h4 : g1.shoot (11/10) x2 y2 = g1 := by
      unfold Game.shoot
      rw [if_pos h3]
    rw [h4, hg1]
    unfold Game.shoot
    rw [if_neg h1]
    simp [Game.init, Game.start_game]

/-- Witness for `shoot_cooldown_noop`: a call 0.1s after an accepted
call is the identity, and an accepted call from a fresh game appends
its effect and stamps the time. -/
theorem shoot_cooldown_noop_witness :
    ({ Game.init with last_shoot_time := 1 } : Game).shoot (11/10) 500 500 =
      { Game.init with last_shoot_time := 1 } ∧
    ((Game.init.shoot 1 500 500).shoot_effects =
      [] ++ [ShootEffect.init ((500 / 1000) * VIRTUAL_WIDTH) ((500 / 1000) * VIRTUAL_HEIGHT)] ∧
     (Game.init.shoot 1 500 500).last_shoot_time = 1) :=
  ⟨(shoot_cooldown_noop { Game.init with last_shoot_time := 1 } (11/10) 500 500 0 0 0 0).1
     (by norm_num [Game.init, SHOOT_COOLDOWN]),
   (shoot_cooldown_noop Game.init 1 500 500 0 0 0 0).2.1
     (by norm_num [Game.init, SHOOT_COOLDOWN])⟩

/-- C7: a RUN-state update tick whose elapsed time has reached the game
duration only flips the state to RESULT — no spawn, no entity
advancement or pruning, no score/popped change on that tick; starting a
fresh game at time 0 and updating at exactly time 30 with no shots
yields RESULT with score 0, popped 0 and ticket value −90. -/
theorem run_timeout_transition (g : Game) (now dt sx ss sr : ℚ) (sinFn : ℚ → ℚ) :
    (g.state = GameState.RUN → now - g.game_start_time ≥ GAME_DURATION →
      g.update now dt sinFn sx ss sr = { g with state := GameState.RESULT }) ∧
    (((Game.init.start_game 0).update 30 dt sinFn sx ss sr).state = GameState.RESULT ∧
     ((Game.init.start_game 0).update 30 dt sinFn sx ss sr).score = 0 ∧
     ((Game.init.start_game 0).update 30 dt sinFn sx ss sr).balloons_popped = 0 ∧
     ((Game.init.start_game 0).update 30 dt sinFn sx ss sr).calculate_time_tickets = -90) := by
  refine ⟨?_, ?_⟩
  · intro hstate helapsed
    obtain ⟨st, sc, bp, gst, lst, lbs, bs, se, ia, ap⟩ := g
    simp only at hstate
    subst hstate
    simp only [Game.update]
    rw [if_pos helapsed]
  · have helaps : (30:ℚ) - 0 ≥ GAME_DURATION := by
      norm_num [GAME_DURATION]
    have hupd : (Game.init.start_game 0).update 30 dt sinFn sx ss sr =
        { Game.init.start_game 0 with state := GameState.RESULT } := by
      show Game.update
        { Game.init with
          state := GameState.RUN, score := 0, balloons_popped := 0,
          game_start_time := 0, last_balloon_spawn := 0,
          balloons := [], shoot_effects := [] } 30 dt sinFn sx ss sr = _
      simp only [Game.update]
      rw [if_pos helaps]
      rfl
    rw [hupd]
    refine ⟨rfl, rfl, rfl, ?_⟩
    decide

/-- Witness for `run_timeout_transition`: one second past the duration,
the tick only flips the state. -/
theorem run_timeout_transition_witness :
    (Game.init.start_game 0).update 31 (1/100) (fun q => q) 0 0 0 =
      { Game.init.start_game 0 with state := GameState.RESULT } :=
  (run_timeout_transition (Game.init.start_game 0) 31 (1/100) 0 0 0 (fun q => q)).1
    rfl (by norm_num [Game.init, Game.start_game, GAME_DURATION])

/-- If no balloon in the list is both alive and within collision range
of the shot point, the hit scan leaves the list unchanged and reports
zero score and popped deltas. -/
theorem shootScan_of_none (vx vy : ℚ) :
    ∀ (bs : List Balloon), firstHitIndexSpec vx vy bs = none →
      shootScan vx vy bs = (bs, 0, 0) := by
  intro bs
  induction bs with
  | nil => intro _; rfl
  | cons b rest ih =>
      intro h
      simp only [firstHitIndexSpec] at h
      split at h
      · exact absurd h (by simp)
      · next hb =>
          have hrest : firstHitIndexSpec vx vy rest = none := by
            cases hfr : firstHitIndexSpec vx vy rest with
            | none => rfl
            | some j => rw [hfr] at h; simp at h
          simp only [shootScan]
          rw [if_neg hb, ih hrest]

/-- If the first alive balloon within collision range of the shot point
sits at index `i`, the hit scan kills exactly that balloon (every other
list entry is untouched) and reports its score value, with a popped
increment exactly when that value is positive. -/
theorem shootScan_of_some (vx vy : ℚ) :
    ∀ (bs : List Balloon) (i : ℕ) (b : Balloon),
      firstHitIndexSpec vx vy bs = some i → bs[i]? = some b →
      shootScan vx vy bs = (bs.set i { b with alive := false }, b.score_value,
        if b.score_value > 0 then 1 else 0) := by
  intro bs
  induction bs with
  | nil => intro i b h _; simp [firstHitIndexSpec] at h
  | cons hd rest ih =>
      intro i b h hget
      simp only [firstHitIndexSpec] at h
      split at h
      · next hb =>
          have hi : i = 0 := by
            injection h with h0
            exact h0.symm
          subst hi
          have hb' : hd = b := by
            rw [List.getElem?_cons_zero] at hget
            injection hget
          subst hb'
          simp only [shootScan]
          rw [if_pos hb, List.set_cons_zero]
      · next hb =>
          obtain ⟨j, hj, hij⟩ : ∃ j, firstHitIndexSpec vx vy rest = some j ∧ j + 1 = i := by
            cases hfr : firstHitIndexSpec vx vy rest with
            | none => rw [hfr] at h; simp at h
            | some j =>
                rw [hfr] at h
                simp only [Option.map_some'] at h
                injection h with h0
                exact ⟨j, rfl, h0⟩
          subst hij
          rw [List.getElem?_cons_succ] at hget
          have hrec := ih j b hj hget
          simp only [shootScan]
          rw [if_neg hb, hrec, List.set_cons_succ]

/-- C1: an accepted shoot at (x, y), mapped to virtual coordinates,
resolves against the first balloon in list order that is alive and
strictly closer to the shot point than its radius plus the fixed hit
radius 15: that balloon (and only that one — every other list entry is
untouched even if it also overlaps the point) gets its alive flag
cleared, its signed score value is added to the score, and the popped
counter grows by one exactly when that value is positive; with no such
balloon, the balloon list, score and popped counter are unchanged. -/
theorem shoot_first_hit_resolution (g : Game) (now x y : ℚ) :
    ¬ now - g.last_shoot_time < SHOOT_COOLDOWN →
    ((∀ (i : ℕ) (b : Balloon),
        firstHitIndexSpec ((x / 1000) * VIRTUAL_WIDTH) ((y / 1000) * VIRTUAL_HEIGHT)
          g.balloons = some i →
        g.balloons[i]? = some b →
        (g.shoot now x y).balloons = g.balloons.set i { b with alive := false } ∧
        (g.shoot now x y).score = g.score + b.score_value ∧
        (g.shoot now x y).balloons_popped =
          g.balloons_popped + (if b.score_value > 0 then 1 else 0)) ∧
     (firstHitIndexSpec ((x / 1000) * VIRTUAL_WIDTH) ((y / 1000) * VIRTUAL_HEIGHT)
          g.balloons = none →
        (g.shoot now x y).balloons = g.balloons ∧
        (g.shoot now x y).score = g.score ∧
        (g.shoot now x y).balloons_popped = g.balloons_popped)) := by
  intro hcd
  constructor
  · intro i b hidx hget
    simp only [Game.shoot]
    rw [if_neg hcd, shootScan_of_some _ _ _ i b hidx hget]
    exact ⟨rfl, rfl, rfl⟩
  · intro hnone
    simp only [Game.shoot]
    rw [if_neg hcd, shootScan_of_none _ _ _ hnone]
    refine ⟨rfl, ?_, ?_⟩ <;> simp

/-- Witness for `shoot_first_hit_resolution`: two balloons at the same
point (a bonus inserted first, a normal after it); an accepted shot at
the mapped point (500, 500) → (240, 135) kills only the
earlier-inserted bonus balloon, adds +20 and counts one pop. -/
theorem shoot_first_hit_resolution_witness :
    (({ Game.init with balloons := [Balloon.init 240 135 10 BalloonType.bonus,
          Balloon.init 240 135 10 BalloonType.normal] } : Game).shoot 1 500 500).balloons =
      [{ Balloon.init 240 135 10 BalloonType.bonus with alive := false },
       Balloon.init 240 135 10 BalloonType.normal] ∧
    (({ Game.init with balloons := [Balloon.init 240 135 10 BalloonType.bonus,
          Balloon.init 240 135 10 BalloonType.normal] } : Game).shoot 1 500 500).score =
      0 + 20 ∧
    (({ Game.init with balloons := [Balloon.init 240 135 10 BalloonType.bonus,
          Balloon.init 240 135 10 BalloonType.normal] } : Game).shoot 1 500 500).balloons_popped =
      0 + 1 :=
  (shoot_first_hit_resolution
      { Game.init with balloons := [Balloon.init 240 135 10 BalloonType.bonus,
          Balloon.init 240 135 10 BalloonType.normal] } 1 500 500
      (by norm_num [Game.init, SHOOT_COOLDOWN])).1 0
      (Balloon.init 240 135 10 BalloonType.bonus)
      (by norm_num [firstHitIndexSpec, Balloon.init, Balloon.collides_with,
            BALLOON_SIZE, VIRTUAL_WIDTH, VIRTUAL_HEIGHT])
      rfl

/-- Characterization of `HeartDetector.detect` on a frame with a hand:
shoot verdict exactly when the upward-sector and strict-gun tests both
pass, aiming verdict (at the index tip) in every other case. -/
theorem detect_some_eq (h : HandLandmarks) :
    detect (some h) =
      if (shoot_angle_ok (h.index_tip.x - h.wrist.x) (h.index_tip.y - h.wrist.y) &&
          is_strict_gun h) = true
      then { shoot_detected := true, shoot_position := some (index_tip_position h),
             is_aiming := false, aiming_position := none }
      else { shoot_detected := false, shoot_position := none,
             is_aiming := true, aiming_position := some (index_tip_position h) } := by
  by_cases hc : (shoot_angle_ok (h.index_tip.x - h.wrist.x) (h.index_tip.y - h.wrist.y) &&
      is_strict_gun h) = true
  · simp [detect, detect_gun_gesture, hc]
  · simp [detect, detect_gun_gesture, hc]

/-- C8: with a detected hand, the verdict is shoot if and only if the
strict-gun condition holds together with the wrist→index-tip angle
lying in the upward sector [225°, 315°]; in every other hand-present
case the verdict is aiming with the index-tip position; with a hand
exactly one of shoot/aiming holds, shoot and aiming are never both
reported, and with no hand the verdict is idle (neither). -/
theorem gesture_classification (oh : Option HandLandmarks) (h : HandLandmarks) :
    (detect (some h) =
      if (shoot_angle_ok (h.index_tip.x - h.wrist.x) (h.index_tip.y - h.wrist.y) &&
          is_strict_gun h) = true
      then { shoot_detected := true, shoot_position := some (index_tip_position h),
             is_aiming := false, aiming_position := none }
      else { shoot_detected := false, shoot_position := none,
             is_aiming := true, aiming_position := some (index_tip_position h) }) ∧
    Bool.xor (detect (some h)).shoot_detected (detect (some h)).is_aiming = true ∧
    ((detect oh).shoot_detected && (detect oh).is_aiming) = false ∧
    detect none = { shoot_detected := false, shoot_position := none,
                    is_aiming := false, aiming_position := none } := by
  refine ⟨detect_some_eq h, ?_, ?_, rfl⟩
  · rw [detect_some_eq h]
    by_cases hc : (shoot_angle_ok (h.index_tip.x - h.wrist.x) (h.index_tip.y - h.wrist.y) &&
        is_strict_gun h) = true
    · rw [if_pos hc]
      rfl
    · rw [if_neg hc]
      rfl
  · cases oh with
    | none => rfl
    | some h' =>
        rw [detect_some_eq h']
        by_cases hc : (shoot_angle_ok (h'.index_tip.x - h'.wrist.x)
            (h'.index_tip.y - h'.wrist.y) && is_strict_gun h') = true
        · rw [if_pos hc]
          rfl
        · rw [if_neg hc]
          rfl

/-- C6: on a rising-edge shoot trigger in RUN state, the position given
to the shoot call is the stored last-known aiming position (the value
carried over from earlier aiming ticks), never the current tick's
reported shoot position: the resulting loop state is fully determined
by the stored pair `(x, y)`, and the stored aiming position survives
the shoot tick unchanged (a shoot-verdict tick never overwrites it,
since its aiming flag is false). -/
theorem shoot_uses_last_aiming_position (s : LoopState) (h : HandLandmarks)
    (now : ℚ) (x y : ℤ) :
    ((detect (some h)).shoot_detected = true →
     s.last_heart_state = false →
     s.game.state = GameState.RUN →
     s.last_aiming_position = some (x, y) →
     processGesture s (detect (some h)) now =
       { game := (s.game.set_aiming false none).shoot now (x : ℚ) (y : ℚ),
         last_heart_state := true,
         last_aiming_position := some (x, y) }) ∧
    ((detect (some h)).shoot_detected = false →
     (s.game.state = GameState.READY ∨ s.game.state = GameState.RUN) →
     (processGesture s (detect (some h)) now).last_aiming_position =
       some (index_tip_position h)) := by
  constructor
  · intro hshoot hprev hstate hlast
    have hd : detect (some h) =
        { shoot_detected := true, shoot_position := some (index_tip_position h),
          is_aiming := false, aiming_position := none } := by
      rw [detect_some_eq h] at hshoot ⊢
      by_cases hc : (shoot_angle_ok (h.index_tip.x - h.wrist.x)
          (h.index_tip.y - h.wrist.y) && is_strict_gun h) = true
      · rw [if_pos hc]
      · rw [if_neg hc] at hshoot
        simp at hshoot
    rw [hd]
    simp [processGesture, Game.set_aiming, hprev, hstate, hlast]
  · intro hshoot hstate
    have hd : detect (some h) =
        { shoot_detected := false, shoot_position := none,
          is_aiming := true, aiming_position := some (index_tip_position h) } := by
      rw [detect_some_eq h] at hshoot ⊢
      by_cases hc : (shoot_angle_ok (h.index_tip.x - h.wrist.x)
          (h.index_tip.y - h.wrist.y) && is_strict_gun h) = true
      · rw [if_pos hc] at hshoot
        simp at hshoot
      · rw [if_neg hc]
    rw [hd]
    rcases hstate with hst | hst <;>
      simp [processGesture, Game.set_aiming, hst]

/-- Witness for `shoot_uses_last_aiming_position`: a hand pointing
straight up in strict gun pose triggers a shoot at the stored aiming
position (500, 500), not at the index tip; a hand pointing sideways on
an aiming tick overwrites the stored position with its index tip. -/
theorem shoot_uses_last_aiming_position_witness :
    (processGesture
        { game := { Game.init with state := GameState.RUN },
          last_heart_state := false, last_aiming_position := some (500, 500) }
        (detect (some
          { wrist := { x := 1/2, y := 9/10 },
            index_tip := { x := 1/2, y := 2/10 }, index_pip := { x := 1/2, y := 5/10 },
            middle_tip := { x := 1/2, y := 6/10 }, middle_pip := { x := 1/2, y := 5/10 },
            ring_tip := { x := 1/2, y := 6/10 }, ring_pip := { x := 1/2, y := 5/10 },
            pinky_tip := { x := 1/2, y := 6/10 }, pinky_pip := { x := 1/2, y := 5/10 } })) 1 =
      { game := (({ Game.init with state := GameState.RUN } : Game).set_aiming
          false none).shoot 1 ((500 : ℤ) : ℚ) ((500 : ℤ) : ℚ),
        last_heart_state := true,
        last_aiming_position := some (500, 500) }) ∧
    (processGesture
        { game := { Game.init with state := GameState.RUN },
          last_heart_state := false, last_aiming_position := some (500, 500) }
        (detect (some
          { wrist := { x := 1/10, y := 1/2 },
            index_tip := { x := 9/10, y := 1/2 }, index_pip := { x := 1/2, y := 1/2 },
            middle_tip := { x := 1/2, y := 1/2 }, middle_pip := { x := 1/2, y := 1/2 },
            ring_tip := { x := 1/2, y := 1/2 }, ring_pip := { x := 1/2, y := 1/2 },
            pinky_tip := { x := 1/2, y := 1/2 }, pinky_pip := { x := 1/2, y := 1/2 } })) 1
      ).last_aiming_position =
      some (index_tip_position
        { wrist := { x := 1/10, y := 1/2 },
          index_tip := { x := 9/10, y := 1/2 }, index_pip := { x := 1/2, y := 1/2 },
          middle_tip := { x := 1/2, y := 1/2 }, middle_pip := { x := 1/2, y := 1/2 },
          ring_tip := { x := 1/2, y := 1/2 }, ring_pip := { x := 1/2, y := 1/2 },
          pinky_tip := { x := 1/2, y := 1/2 }, pinky_pip := { x := 1/2, y := 1/2 } }) :=
  ⟨(shoot_uses_last_aiming_position
      { game := { Game.init with state := GameState.RUN },
        last_heart_state := false, last_aiming_position := some (500, 500) }
      { wrist := { x := 1/2, y := 9/10 },
        index_tip := { x := 1/2, y := 2/10 }, index_pip := { x := 1/2, y := 5/10 },
        middle_tip := { x := 1/2, y := 6/10 }, middle_pip := { x := 1/2, y := 5/10 },
        ring_tip := { x := 1/2, y := 6/10 }, ring_pip := { x := 1/2, y := 5/10 },
        pinky_tip := { x := 1/2, y := 6/10 }, pinky_pip := { x := 1/2, y := 5/10 } }
      1 500 500).1
      (by norm_num [detect, detect_gun_gesture, shoot_angle_ok, is_strict_gun,
            is_finger_extended])
      rfl rfl rfl,
   (shoot_uses_last_aiming_position
      { game := { Game.init with state := GameState.RUN },
        last_heart_state := false, last_aiming_position := some (500, 500) }
      { wrist := { x := 1/10, y := 1/2 },
        index_tip := { x := 9/10, y := 1/2 }, index_pip := { x := 1/2, y := 1/2 },
        middle_tip := { x := 1/2, y := 1/2 }, middle_pip := { x := 1/2, y := 1/2 },
        ring_tip := { x := 1/2, y := 1/2 }, ring_pip := { x := 1/2, y := 1/2 },
        pinky_tip := { x := 1/2, y := 1/2 }, pinky_pip := { x := 1/2, y := 1/2 } }
      1 0 0).2
      (by norm_num [detect, detect_gun_gesture, shoot_angle_ok, is_strict_gun,
            is_finger_extended])
      (Or.inr rfl)⟩

/-- Counterexample to C6 as stated: an aiming-verdict tick processed
while the game is in RESULT state does NOT overwrite the stored aiming
position (main loop guards the overwrite by state ∈ {READY, RUN}), so
"each aiming tick overwrites it" fails: here the tick's verdict is
aiming at (900, 500) yet the stored position stays (1, 1). -/
theorem aiming_tick_in_result_state_counterexample :
    (detect (some
      { wrist := { x := 1/10, y := 1/2 },
        index_tip := { x := 9/10, y := 1/2 }, index_pip := { x := 1/2, y := 1/2 },
        middle_tip := { x := 1/2, y := 1/2 }, middle_pip := { x := 1/2, y := 1/2 },
        ring_tip := { x := 1/2, y := 1/2 }, ring_pip := { x := 1/2, y := 1/2 },
        pinky_tip := { x := 1/2, y := 1/2 }, pinky_pip := { x := 1/2, y := 1/2 } })).is_aiming
      = true ∧
    (detect (some
      { wrist := { x := 1/10, y := 1/2 },
        index_tip := { x := 9/10, y := 1/2 }, index_pip := { x := 1/2, y := 1/2 },
        middle_tip := { x := 1/2, y := 1/2 }, middle_pip := { x := 1/2, y := 1/2 },
        ring_tip := { x := 1/2, y := 1/2 }, ring_pip := { x := 1/2, y := 1/2 },
        pinky_tip := { x := 1/2, y := 1/2 }, pinky_pip := { x := 1/2, y := 1/2 } })).aiming_position
      = some (900, 500) ∧
    (processGesture
        { game := { Game.init with state := GameState.RESULT },
          last_heart_state := false, last_aiming_position := some (1, 1) }
        (detect (some
          { wrist := { x := 1/10, y := 1/2 },
            index_tip := { x := 9/10, y := 1/2 }, index_pip := { x := 1/2, y := 1/2 },
            middle_tip := { x := 1/2, y := 1/2 }, middle_pip := { x := 1/2, y := 1/2 },
            ring_tip := { x := 1/2, y := 1/2 }, ring_pip := { x := 1/2, y := 1/2 },
            pinky_tip := { x := 1/2, y := 1/2 }, pinky_pip := { x := 1/2, y := 1/2 } }))
        0).last_aiming_position = some (1, 1) := by
  refine ⟨?_, ?_, ?_⟩
  · norm_num [detect, detect_gun_gesture, shoot_angle_ok, is_strict_gun,
      is_finger_extended]
  · norm_num [detect, detect_gun_gesture, shoot_angle_ok, is_strict_gun,
      is_finger_extended, index_tip_position, pyInt]
  · have hstate : ¬ (GameState.RESULT = GameState.READY ∨
        GameState.RESULT = GameState.RUN) := by
      simp
    norm_num [processGesture, hstate, detect, detect_gun_gesture, shoot_angle_ok,
      is_strict_gun, is_finger_extended, Game.init, Game.set_aiming]

/-- C10: a rising-edge shoot trigger that arrives while the stored
aiming position is still null makes no shoot call at all: no shoot
effect is spawned and score, popped counter and the cooldown timestamp
are all unchanged. -/
theorem no_shoot_without_aiming_position (s : LoopState) (h : HandLandmarks) (now : ℚ) :
    (detect (some h)).shoot_detected = true →
    s.last_heart_state = false →
    s.last_aiming_position = none →
    ((processGesture s (detect (some h)) now).game.shoot_effects = s.game.shoot_effects ∧
     (processGesture s (detect (some h)) now).game.score = s.game.score ∧
     (processGesture s (detect (some h)) now).game.balloons_popped =
       s.game.balloons_popped ∧
     (processGesture s (detect (some h)) now).game.last_shoot_time =
       s.game.last_shoot_time) := by
  intro hshoot hprev hlast
  have hd : detect (some h) =
      { shoot_detected := true, shoot_position := some (index_tip_position h),
        is_aiming := false, aiming_position := none } := by
    rw [detect_some_eq h] at hshoot ⊢
    by_cases hc : (shoot_angle_ok (h.index_tip.x - h.wrist.x)
        (h.index_tip.y - h.wrist.y) && is_strict_gun h) = true
    · rw [if_pos hc]
    · rw [if_neg hc] at hshoot
      simp at hshoot
  rw [hd]
  cases hst : s.game.state <;>
    simp [processGesture, Game.set_aiming, hprev, hlast, hst]

/-- Witness for `no_shoot_without_aiming_position`: the same shoot-pose
hand with no stored aiming position leaves effects, score, popped count
and cooldown timestamp untouched. -/
theorem no_shoot_without_aiming_position_witness :
    ((processGesture
        { game := { Game.init with state := GameState.RUN },
          last_heart_state := false, last_aiming_position := none }
        (detect (some
          { wrist := { x := 1/2, y := 9/10 },
            index_tip := { x := 1/2, y := 2/10 }, index_pip := { x := 1/2, y := 5/10 },
            middle_tip := { x := 1/2, y := 6/10 }, middle_pip := { x := 1/2, y := 5/10 },
            ring_tip := { x := 1/2, y := 6/10 }, ring_pip := { x := 1/2, y := 5/10 },
            pinky_tip := { x := 1/2, y := 6/10 }, pinky_pip := { x := 1/2, y := 5/10 } }))
        1).game.shoot_effects =
      ({ Game.init with state := GameState.RUN } : Game).shoot_effects ∧
     (processGesture
        { game := { Game.init with state := GameState.RUN },
          last_heart_state := false, last_aiming_position := none }
        (detect (some
          { wrist := { x := 1/2, y := 9/10 },
            index_tip := { x := 1/2, y := 2/10 }, index_pip := { x := 1/2, y := 5/10 },
            middle_tip := { x := 1/2, y := 6/10 }, middle_pip := { x := 1/2, y := 5/10 },
            ring_tip := { x := 1/2, y := 6/10 }, ring_pip := { x := 1/2, y := 5/10 },
            pinky_tip := { x := 1/2, y := 6/10 }, pinky_pip := { x := 1/2, y := 5/10 } }))
        1).game.score =
      ({ Game.init with state := GameState.RUN } : Game).score ∧
     (processGesture
        { game := { Game.init with state := GameState.RUN },
          last_heart_state := false, last_aiming_position := none }
        (detect (some
          { wrist := { x := 1/2, y := 9/10 },
            index_tip := { x := 1/2, y := 2/10 }, index_pip := { x := 1/2, y := 5/10 },
            middle_tip := { x := 1/2, y := 6/10 }, middle_pip := { x := 1/2, y := 5/10 },
            ring_tip := { x := 1/2, y := 6/10 }, ring_pip := { x := 1/2, y := 5/10 },
            pinky_tip := { x := 1/2, y := 6/10 }, pinky_pip := { x := 1/2, y := 5/10 } }))
        1).game.balloons_popped =
      ({ Game.init with state := GameState.RUN } : Game).balloons_popped ∧
     (processGesture
        { game := { Game.init with state := GameState.RUN },
          last_heart_state := false, last_aiming_position := none }
        (detect (some
          { wrist := { x := 1/2, y := 9/10 },
            index_tip := { x := 1/2, y := 2/10 }, index_pip := { x := 1/2, y := 5/10 },
            middle_tip := { x := 1/2, y := 6/10 }, middle_pip := { x := 1/2, y := 5/10 },
            ring_tip := { x := 1/2, y := 6/10 }, ring_pip := { x := 1/2, y := 5/10 },
            pinky_tip := { x := 1/2, y := 6/10 }, pinky_pip := { x := 1/2, y := 5/10 } }))
        1).game.last_shoot_time =
      ({ Game.init with state := GameState.RUN } : Game).last_shoot_time) :=
  no_shoot_without_aiming_position
    { game := { Game.init with state := GameState.RUN },
      last_heart_state := false, last_aiming_position := none }
    { wrist := { x := 1/2, y := 9/10 },
      index_tip := { x := 1/2, y := 2/10 }, index_pip := { x := 1/2, y := 5/10 },
      middle_tip := { x := 1/2, y := 6/10 }, middle_pip := { x := 1/2, y := 5/10 },
      ring_tip := { x := 1/2, y := 6/10 }, ring_pip := { x := 1/2, y := 5/10 },
      pinky_tip := { x := 1/2, y := 6/10 }, pinky_pip := { x := 1/2, y := 5/10 } }
    1
    (by norm_num [detect, detect_gun_gesture, shoot_angle_ok, is_strict_gun,
          is_finger_extended])
    rfl rfl

end BalloonPop
